import Mathlib

/-!
Verification of the cgmath matrix module.

A shallow embedding of `src/cgmath/matrix.rs`: column-major square matrix
types `Mat2`, `Mat3`, `Mat4` over an exact scalar field, with the
per-dimension determinant, inversion, transposition and quaternion
conversion algorithms translated from the source.

Modelling conventions:
* The abstract scalar type `S` (a `Float` capability in the source) is
  modelled as `ℚ`, an exact ordered field. Division is total with
  `x / 0 = 0` (the Lean convention); every concrete input used below
  avoids division by zero unless explicitly noted.
* `sin`, `cos` and `sqrt` belong to the external scalar capability, so
  operations using them (`Mat2.from_angle`, `Mat3.to_quat`) take the
  corresponding function as an explicit parameter.
* The approximate-equality capability is external to the module; it is
  modelled as `|a - b| < approx_epsilon` with the fixed tolerance
  `1/1000000`. None of the results below depend on the exact value of
  the tolerance, only on it being positive and small.
-/

/-- Modelled from the spec: the external approximate-equality capability
uses a fixed tolerance. The concrete value is irrelevant to every result
below; it only needs to be positive and smaller than 1. -/
def approx_epsilon : ℚ := 1 / 1000000

/-- Modelled from the spec: scalar approximate equality, true when the two
scalars differ by less than the fixed tolerance. -/
def approx_eq (a b : ℚ) : Bool := decide (|a - b| < approx_epsilon)

/-- Modelled from the spec: `util::half`, the scalar one half. -/
def half : ℚ := 1 / 2

/-- Modelled from the spec: the external 2-component vector type. -/
structure Vec2 where
  x : ℚ
  y : ℚ
  deriving DecidableEq

/-- Modelled from the spec: the external 3-component vector type. -/
structure Vec3 where
  x : ℚ
  y : ℚ
  z : ℚ
  deriving DecidableEq

/-- Modelled from the spec: the external 4-component vector type. -/
structure Vec4 where
  x : ℚ
  y : ℚ
  z : ℚ
  w : ℚ
  deriving DecidableEq

/-- Modelled from the spec: the quaternion output, a 4-tuple (w, x, y, z). -/
structure Quat where
  w : ℚ
  x : ℚ
  y : ℚ
  z : ℚ
  deriving DecidableEq

namespace Vec2

def new (x y : ℚ) : Vec2 := ⟨x, y⟩

/-- Indexed component access (`array::i` on the vector). -/
def i (v : Vec2) : Fin 2 → ℚ
  | ⟨0, _⟩ => v.x
  | ⟨1, _⟩ => v.y

/-- Replace the component at an index. -/
def set (v : Vec2) : Fin 2 → ℚ → Vec2
  | ⟨0, _⟩, a => ⟨a, v.y⟩
  | ⟨1, _⟩, a => ⟨v.x, a⟩

def dot (a b : Vec2) : ℚ := a.x * b.x + a.y * b.y

def mul_s (v : Vec2) (s : ℚ) : Vec2 := ⟨v.x * s, v.y * s⟩

def div_s (v : Vec2) (s : ℚ) : Vec2 := ⟨v.x / s, v.y / s⟩

def sub_v (a b : Vec2) : Vec2 := ⟨a.x - b.x, a.y - b.y⟩

/-- Component-wise approximate equality. -/
def approx (a b : Vec2) : Bool := approx_eq a.x b.x && approx_eq a.y b.y

end Vec2

namespace Vec3

def new (x y z : ℚ) : Vec3 := ⟨x, y, z⟩

/-- Indexed component access (`array::i` on the vector). -/
def i (v : Vec3) : Fin 3 → ℚ
  | ⟨0, _⟩ => v.x
  | ⟨1, _⟩ => v.y
  | ⟨2, _⟩ => v.z

/-- Replace the component at an index. -/
def set (v : Vec3) : Fin 3 → ℚ → Vec3
  | ⟨0, _⟩, a => ⟨a, v.y, v.z⟩
  | ⟨1, _⟩, a => ⟨v.x, a, v.z⟩
  | ⟨2, _⟩, a => ⟨v.x, v.y, a⟩

def dot (a b : Vec3) : ℚ := a.x * b.x + a.y * b.y + a.z * b.z

/-- Modelled from the spec: the standard 3-component cross product. -/
def cross (a b : Vec3) : Vec3 :=
  ⟨a.y * b.z - a.z * b.y, a.z * b.x - a.x * b.z, a.x * b.y - a.y * b.x⟩

def mul_s (v : Vec3) (s : ℚ) : Vec3 := ⟨v.x * s, v.y * s, v.z * s⟩

def div_s (v : Vec3) (s : ℚ) : Vec3 := ⟨v.x / s, v.y / s, v.z / s⟩

def sub_v (a b : Vec3) : Vec3 := ⟨a.x - b.x, a.y - b.y, a.z - b.z⟩

/-- Component-wise approximate equality. -/
def approx (a b : Vec3) : Bool :=
  approx_eq a.x b.x && approx_eq a.y b.y && approx_eq a.z b.z

end Vec3

namespace Vec4

def new (x y z w : ℚ) : Vec4 := ⟨x, y, z, w⟩

/-- Indexed component access (`array::i` on the vector). -/
def i (v : Vec4) : Fin 4 → ℚ
  | ⟨0, _⟩ => v.x
  | ⟨1, _⟩ => v.y
  | ⟨2, _⟩ => v.z
  | ⟨3, _⟩ => v.w

/-- Replace the component at an index. -/
def set (v : Vec4) : Fin 4 → ℚ → Vec4
  | ⟨0, _⟩, a => ⟨a, v.y, v.z, v.w⟩
  | ⟨1, _⟩, a => ⟨v.x, a, v.z, v.w⟩
  | ⟨2, _⟩, a => ⟨v.x, v.y, a, v.w⟩
  | ⟨3, _⟩, a => ⟨v.x, v.y, v.z, a⟩

def dot (a b : Vec4) : ℚ := a.x * b.x + a.y * b.y + a.z * b.z + a.w * b.w

def mul_s (v : Vec4) (s : ℚ) : Vec4 := ⟨v.x * s, v.y * s, v.z * s, v.w * s⟩

def div_s (v : Vec4) (s : ℚ) : Vec4 := ⟨v.x / s, v.y / s, v.z / s, v.w / s⟩

def sub_v (a b : Vec4) : Vec4 := ⟨a.x - b.x, a.y - b.y, a.z - b.z, a.w - b.w⟩

/-- Component-wise approximate equality. -/
def approx (a b : Vec4) : Bool :=
  approx_eq a.x b.x && approx_eq a.y b.y && approx_eq a.z b.z && approx_eq a.w b.w

end Vec4

/-- A 2 x 2, column major matrix (`Mat2<S>`): fields are the columns. -/
structure Mat2 where
  x : Vec2
  y : Vec2
  deriving DecidableEq

/-- A 3 x 3, column major matrix (`Mat3<S>`): fields are the columns. -/
structure Mat3 where
  x : Vec3
  y : Vec3
  z : Vec3
  deriving DecidableEq

/-- A 4 x 4, column major matrix (`Mat4<S>`): fields are the columns. -/
structure Mat4 where
  x : Vec4
  y : Vec4
  z : Vec4
  w : Vec4
  deriving DecidableEq

namespace Mat2

def from_cols (c0 c1 : Vec2) : Mat2 := ⟨c0, c1⟩

/-- `Mat2::new` takes the scalars in column-major order. -/
def new (c0r0 c0r1 c1r0 c1r1 : ℚ) : Mat2 :=
  from_cols (Vec2.new c0r0 c0r1) (Vec2.new c1r0 c1r1)

def from_value (value : ℚ) : Mat2 := new value 0 0 value

def zero : Mat2 := from_value 0

def ident : Mat2 := from_value 1

/-- `Mat2::from_angle`. The external trigonometric capability is passed in
as the two functions `cosF` and `sinF`. The argument layout is translated
verbatim from the source. -/
def from_angle (cosF sinF : ℚ → ℚ) (radians : ℚ) : Mat2 :=
  let cos_theta := cosF radians
  let sin_theta := sinF radians
  new cos_theta (-sin_theta)
      sin_theta cos_theta

/-- Column access `c(i)`. -/
def c (m : Mat2) : Fin 2 → Vec2
  | ⟨0, _⟩ => m.x
  | ⟨1, _⟩ => m.y

/-- Replace a column (the effect of writing through `mut_c`). -/
def setC (m : Mat2) : Fin 2 → Vec2 → Mat2
  | ⟨0, _⟩, v => ⟨v, m.y⟩
  | ⟨1, _⟩, v => ⟨m.x, v⟩

/-- Entry access `cr(c, r)`: column c, row r. -/
def cr (m : Mat2) (c0 r0 : Fin 2) : ℚ := (m.c c0).i r0

/-- Overwrite the entry at (column, row) (the effect of `mut_cr`). -/
def set_cr (m : Mat2) (c0 r0 : Fin 2) (a : ℚ) : Mat2 :=
  m.setC c0 ((m.c c0).set r0 a)

/-- `swap_cr`: exchange two entries using a temporary, as the trait does. -/
def swap_cr (m : Mat2) (a b : Fin 2 × Fin 2) : Mat2 :=
  let tmp := m.cr a.1 a.2
  let m1 := m.set_cr a.1 a.2 (m.cr b.1 b.2)
  m1.set_cr b.1 b.2 tmp

/-- Row access `r(r)`: gathers component r of every column. -/
def r (m : Mat2) (r0 : Fin 2) : Vec2 :=
  Vec2.new ((m.c 0).i r0) ((m.c 1).i r0)

def mul_m (m other : Mat2) : Mat2 :=
  new ((m.r 0).dot (other.c 0)) ((m.r 1).dot (other.c 0))
      ((m.r 0).dot (other.c 1)) ((m.r 1).dot (other.c 1))

def transpose (m : Mat2) : Mat2 :=
  new (m.cr 0 0) (m.cr 1 0)
      (m.cr 0 1) (m.cr 1 1)

/-- `transpose_self`: the single pairwise entry swap. -/
def transpose_self (m : Mat2) : Mat2 :=
  m.swap_cr (0, 1) (1, 0)

def determinant (m : Mat2) : ℚ :=
  m.cr 0 0 * m.cr 1 1 - m.cr 1 0 * m.cr 0 1

def invert (m : Mat2) : Option Mat2 :=
  let det := m.determinant
  if approx_eq det 0 then
    none
  else
    some (new (m.cr 1 1 / det) (-(m.cr 0 1) / det)
              (-(m.cr 1 0) / det) (m.cr 0 0 / det))

def is_invertible (m : Mat2) : Bool := !(approx_eq m.determinant 0)

/-- `invert_self`: the `expect` failure is modelled as the error case. -/
def invert_self (m : Mat2) : Except String Mat2 :=
  match m.invert with
  | some p => Except.ok p
  | none => Except.error "Attempted to invert a matrix with zero determinant."

/-- Component-wise approximate equality of matrices. -/
def approx (m n : Mat2) : Bool := Vec2.approx m.x n.x && Vec2.approx m.y n.y

end Mat2

namespace Mat3

def from_cols (c0 c1 c2 : Vec3) : Mat3 := ⟨c0, c1, c2⟩

/-- `Mat3::new` takes the scalars in column-major order. -/
def new (c0r0 c0r1 c0r2 c1r0 c1r1 c1r2 c2r0 c2r1 c2r2 : ℚ) : Mat3 :=
  from_cols (Vec3.new c0r0 c0r1 c0r2) (Vec3.new c1r0 c1r1 c1r2)
            (Vec3.new c2r0 c2r1 c2r2)

def from_value (value : ℚ) : Mat3 :=
  new value 0 0
      0 value 0
      0 0 value

def zero : Mat3 := from_value 0

def ident : Mat3 := from_value 1

/-- Column access `c(i)`. -/
def c (m : Mat3) : Fin 3 → Vec3
  | ⟨0, _⟩ => m.x
  | ⟨1, _⟩ => m.y
  | ⟨2, _⟩ => m.z

/-- Replace a column (the effect of writing through `mut_c`). -/
def setC (m : Mat3) : Fin 3 → Vec3 → Mat3
  | ⟨0, _⟩, v => ⟨v, m.y, m.z⟩
  | ⟨1, _⟩, v => ⟨m.x, v, m.z⟩
  | ⟨2, _⟩, v => ⟨m.x, m.y, v⟩

/-- Entry access `cr(c, r)`: column c, row r. -/
def cr (m : Mat3) (c0 r0 : Fin 3) : ℚ := (m.c c0).i r0

/-- Overwrite the entry at (column, row) (the effect of `mut_cr`). -/
def set_cr (m : Mat3) (c0 r0 : Fin 3) (a : ℚ) : Mat3 :=
  m.setC c0 ((m.c c0).set r0 a)

/-- `swap_cr`: exchange two entries using a temporary, as the trait does. -/
def swap_cr (m : Mat3) (a b : Fin 3 × Fin 3) : Mat3 :=
  let tmp := m.cr a.1 a.2
  let m1 := m.set_cr a.1 a.2 (m.cr b.1 b.2)
  m1.set_cr b.1 b.2 tmp

/-- Row access `r(r)`: gathers component r of every column. -/
def r (m : Mat3) (r0 : Fin 3) : Vec3 :=
  Vec3.new ((m.c 0).i r0) ((m.c 1).i r0) ((m.c 2).i r0)

def mul_m (m other : Mat3) : Mat3 :=
  new ((m.r 0).dot (other.c 0)) ((m.r 1).dot (other.c 0)) ((m.r 2).dot (other.c 0))
      ((m.r 0).dot (other.c 1)) ((m.r 1).dot (other.c 1)) ((m.r 2).dot (other.c 1))
      ((m.r 0).dot (other.c 2)) ((m.r 1).dot (other.c 2)) ((m.r 2).dot (other.c 2))

def transpose (m : Mat3) : Mat3 :=
  new (m.cr 0 0) (m.cr 1 0) (m.cr 2 0)
      (m.cr 0 1) (m.cr 1 1) (m.cr 2 1)
      (m.cr 0 2) (m.cr 1 2) (m.cr 2 2)

/-- `transpose_self`: the three pairwise entry swaps. -/
def transpose_self (m : Mat3) : Mat3 :=
  ((m.swap_cr (0, 1) (1, 0)).swap_cr (0, 2) (2, 0)).swap_cr (1, 2) (2, 1)

def trace (m : Mat3) : ℚ := m.cr 0 0 + m.cr 1 1 + m.cr 2 2

def determinant (m : Mat3) : ℚ :=
  m.cr 0 0 * (m.cr 1 1 * m.cr 2 2 - m.cr 2 1 * m.cr 1 2) -
  m.cr 1 0 * (m.cr 0 1 * m.cr 2 2 - m.cr 2 1 * m.cr 0 2) +
  m.cr 2 0 * (m.cr 0 1 * m.cr 1 2 - m.cr 1 1 * m.cr 0 2)

def invert (m : Mat3) : Option Mat3 :=
  let det := m.determinant
  if approx_eq det 0 then
    none
  else
    some ((from_cols (((m.c 1).cross (m.c 2)).div_s det)
                     (((m.c 2).cross (m.c 0)).div_s det)
                     (((m.c 0).cross (m.c 1)).div_s det)).transpose)

def is_invertible (m : Mat3) : Bool := !(approx_eq m.determinant 0)

/-- `invert_self`: the `expect` failure is modelled as the error case. -/
def invert_self (m : Mat3) : Except String Mat3 :=
  match m.invert with
  | some p => Except.ok p
  | none => Except.error "Attempted to invert a matrix with zero determinant."

/-- Component-wise approximate equality of matrices. -/
def approx (m n : Mat3) : Bool :=
  Vec3.approx m.x n.x && Vec3.approx m.y n.y && Vec3.approx m.z n.z

/-- `ToQuat::to_quat` for `Mat3`, translated branch by branch from the
source (`cond!` becomes nested ifs). The external square-root capability
is passed in as `sq`. -/
def to_quat (m : Mat3) (sq : ℚ → ℚ) : Quat :=
  let trace := m.trace
  if 0 ≤ trace then
    let s := sq (1 + trace)
    let w := half * s
    let s := half / s
    let x := (m.cr 1 2 - m.cr 2 1) * s
    let y := (m.cr 2 0 - m.cr 0 2) * s
    let z := (m.cr 0 1 - m.cr 1 0) * s
    ⟨w, x, y, z⟩
  else if m.cr 0 0 > m.cr 1 1 ∧ m.cr 0 0 > m.cr 2 2 then
    let s := sq (half + (m.cr 0 0 - m.cr 1 1 - m.cr 2 2))
    let w := half * s
    let s := half / s
    let x := (m.cr 0 1 - m.cr 1 0) * s
    let y := (m.cr 2 0 - m.cr 0 2) * s
    let z := (m.cr 1 2 - m.cr 2 1) * s
    ⟨w, x, y, z⟩
  else if m.cr 1 1 > m.cr 2 2 then
    let s := sq (half + (m.cr 1 1 - m.cr 0 0 - m.cr 2 2))
    let w := half * s
    let s := half / s
    let x := (m.cr 0 1 - m.cr 1 0) * s
    let y := (m.cr 1 2 - m.cr 2 1) * s
    let z := (m.cr 2 0 - m.cr 0 2) * s
    ⟨w, x, y, z⟩
  else
    let s := sq (half + (m.cr 2 2 - m.cr 0 0 - m.cr 1 1))
    let w := half * s
    let s := half / s
    let x := (m.cr 2 0 - m.cr 0 2) * s
    let y := (m.cr 1 2 - m.cr 2 1) * s
    let z := (m.cr 0 1 - m.cr 1 0) * s
    ⟨w, x, y, z⟩

end Mat3

namespace Mat4

def from_cols (c0 c1 c2 c3 : Vec4) : Mat4 := ⟨c0, c1, c2, c3⟩

/-- `Mat4::new` takes the scalars in column-major order. -/
def new (c0r0 c0r1 c0r2 c0r3 c1r0 c1r1 c1r2 c1r3
         c2r0 c2r1 c2r2 c2r3 c3r0 c3r1 c3r2 c3r3 : ℚ) : Mat4 :=
  from_cols (Vec4.new c0r0 c0r1 c0r2 c0r3) (Vec4.new c1r0 c1r1 c1r2 c1r3)
            (Vec4.new c2r0 c2r1 c2r2 c2r3) (Vec4.new c3r0 c3r1 c3r2 c3r3)

def from_value (value : ℚ) : Mat4 :=
  new value 0 0 0
      0 value 0 0
      0 0 value 0
      0 0 0 value

def zero : Mat4 := from_value 0

def ident : Mat4 := from_value 1

/-- Column access `c(i)`. -/
def c (m : Mat4) : Fin 4 → Vec4
  | ⟨0, _⟩ => m.x
  | ⟨1, _⟩ => m.y
  | ⟨2, _⟩ => m.z
  | ⟨3, _⟩ => m.w

/-- Replace a column (the effect of writing through `mut_c`). -/
def setC (m : Mat4) : Fin 4 → Vec4 → Mat4
  | ⟨0, _⟩, v => ⟨v, m.y, m.z, m.w⟩
  | ⟨1, _⟩, v => ⟨m.x, v, m.z, m.w⟩
  | ⟨2, _⟩, v => ⟨m.x, m.y, v, m.w⟩
  | ⟨3, _⟩, v => ⟨m.x, m.y, m.z, v⟩

/-- `swap_c`: exchange two columns using a temporary, as the trait does. -/
def swap_c (m : Mat4) (a b : Fin 4) : Mat4 :=
  let tmp := m.c a
  let m1 := m.setC a (m.c b)
  m1.setC b tmp

/-- Entry access `cr(c, r)`: column c, row r. -/
def cr (m : Mat4) (c0 r0 : Fin 4) : ℚ := (m.c c0).i r0

/-- Overwrite the entry at (column, row) (the effect of `mut_cr`). -/
def set_cr (m : Mat4) (c0 r0 : Fin 4) (a : ℚ) : Mat4 :=
  m.setC c0 ((m.c c0).set r0 a)

/-- `swap_cr`: exchange two entries using a temporary, as the trait does. -/
def swap_cr (m : Mat4) (a b : Fin 4 × Fin 4) : Mat4 :=
  let tmp := m.cr a.1 a.2
  let m1 := m.set_cr a.1 a.2 (m.cr b.1 b.2)
  m1.set_cr b.1 b.2 tmp

/-- Row access `r(r)`, translated verbatim from the source: the fourth
component reads column 2 again (`self.i(2).i(r)` twice), not column 3. -/
def r (m : Mat4) (r0 : Fin 4) : Vec4 :=
  Vec4.new ((m.c 0).i r0) ((m.c 1).i r0) ((m.c 2).i r0) ((m.c 2).i r0)

def mul_m (m other : Mat4) : Mat4 :=
  new ((m.r 0).dot (other.c 0)) ((m.r 1).dot (other.c 0)) ((m.r 2).dot (other.c 0)) ((m.r 3).dot (other.c 0))
      ((m.r 0).dot (other.c 1)) ((m.r 1).dot (other.c 1)) ((m.r 2).dot (other.c 1)) ((m.r 3).dot (other.c 1))
      ((m.r 0).dot (other.c 2)) ((m.r 1).dot (other.c 2)) ((m.r 2).dot (other.c 2)) ((m.r 3).dot (other.c 2))
      ((m.r 0).dot (other.c 3)) ((m.r 1).dot (other.c 3)) ((m.r 2).dot (other.c 3)) ((m.r 3).dot (other.c 3))

def transpose (m : Mat4) : Mat4 :=
  new (m.cr 0 0) (m.cr 1 0) (m.cr 2 0) (m.cr 3 0)
      (m.cr 0 1) (m.cr 1 1) (m.cr 2 1) (m.cr 3 1)
      (m.cr 0 2) (m.cr 1 2) (m.cr 2 2) (m.cr 3 2)
      (m.cr 0 3) (m.cr 1 3) (m.cr 2 3) (m.cr 3 3)

/-- `transpose_self`: the six pairwise entry swaps. -/
def transpose_self (m : Mat4) : Mat4 :=
  (((((m.swap_cr (0, 1) (1, 0)).swap_cr (0, 2) (2, 0)).swap_cr (0, 3) (3, 0)).swap_cr
      (1, 2) (2, 1)).swap_cr (1, 3) (3, 1)).swap_cr (2, 3) (3, 2)

/-- Determinant by expanding with four 3x3 matrices built from the entries
outside row 0 (each built transposed, which leaves its determinant
unchanged), translated verbatim from the source. -/
def determinant (m : Mat4) : ℚ :=
  let m0 := Mat3.new (m.cr 1 1) (m.cr 2 1) (m.cr 3 1)
                     (m.cr 1 2) (m.cr 2 2) (m.cr 3 2)
                     (m.cr 1 3) (m.cr 2 3) (m.cr 3 3)
  let m1 := Mat3.new (m.cr 0 1) (m.cr 2 1) (m.cr 3 1)
                     (m.cr 0 2) (m.cr 2 2) (m.cr 3 2)
                     (m.cr 0 3) (m.cr 2 3) (m.cr 3 3)
  let m2 := Mat3.new (m.cr 0 1) (m.cr 1 1) (m.cr 3 1)
                     (m.cr 0 2) (m.cr 1 2) (m.cr 3 2)
                     (m.cr 0 3) (m.cr 1 3) (m.cr 3 3)
  let m3 := Mat3.new (m.cr 0 1) (m.cr 1 1) (m.cr 2 1)
                     (m.cr 0 2) (m.cr 1 2) (m.cr 2 2)
                     (m.cr 0 3) (m.cr 1 3) (m.cr 2 3)
  m.cr 0 0 * m0.determinant -
  m.cr 1 0 * m1.determinant +
  m.cr 2 0 * m2.determinant -
  m.cr 3 0 * m3.determinant

def is_invertible (m : Mat4) : Bool := !(approx_eq m.determinant 0)

/-- One iteration (column j) of the source's Gauss-Jordan loop: search
column j for the row with the largest absolute value, swap that COLUMN
index with column j in both matrices (as the source does), scale column j
to a unit diagonal, then eliminate the off-diagonal entries of row j by
column operations applied identically to both matrices. -/
def gjStep (p : Mat4 × Mat4) (j : Fin 4) : Mat4 × Mat4 :=
  let A := p.1
  let I := p.2
  let i1 := ((List.finRange 4).filter (fun i => j < i)).foldl
    (fun i1 i => if |A.cr j i| > |A.cr j i1| then i else i1) j
  let A := A.swap_c i1 j
  let I := I.swap_c i1 j
  let I := I.setC j ((I.c j).div_s (A.cr j j))
  let A := A.setC j ((A.c j).div_s (A.cr j j))
  (List.finRange 4).foldl
    (fun q i =>
      if i ≠ j then
        let ij_mul_aij := (q.2.c j).mul_s (q.1.cr i j)
        let aj_mul_aij := (q.1.c j).mul_s (q.1.cr i j)
        (q.1.setC i ((q.1.c i).sub_v aj_mul_aij),
         q.2.setC i ((q.2.c i).sub_v ij_mul_aij))
      else q)
    (A, I)

/-- `Mat4::invert`: Gauss-Jordan elimination on [A | I], guarded by the
invertibility check, translated from the source. -/
def invert (m : Mat4) : Option Mat4 :=
  if m.is_invertible then
    some (((List.finRange 4).foldl gjStep (m, ident)).2)
  else
    none

/-- `invert_self`: the `expect` failure is modelled as the error case. -/
def invert_self (m : Mat4) : Except String Mat4 :=
  match m.invert with
  | some p => Except.ok p
  | none => Except.error "Attempted to invert a matrix with zero determinant."

/-- Component-wise approximate equality of matrices. -/
def approx (m n : Mat4) : Bool :=
  Vec4.approx m.x n.x && Vec4.approx m.y n.y && Vec4.approx m.z n.z && Vec4.approx m.w n.w

end Mat4

/-- A concrete 4x4 matrix with sixteen distinct entries, given in the
column-major order of `Mat4::new`: column 0 is (1,2,3,4), column 1 is
(5,6,7,8), column 2 is (9,10,11,12), column 3 is (13,14,15,16). -/
def m4ex : Mat4 := Mat4.new 1 2 3 4 5 6 7 8 9 10 11 12 13 14 15 16

/-- A concrete 3x3 matrix with trace 3 and an asymmetric off-diagonal
pair: entry (column 0, row 1) is 5, entry (column 1, row 0) is 2. -/
def mex3 : Mat3 := Mat3.new 1 5 0 2 1 0 0 0 1

/-- Stand-in for the external square-root capability: the constant 2.
It agrees with the real square root at the only argument `to_quat`
probes on `mex3`, namely 1 + trace = 4. -/
def sqrtStub : ℚ → ℚ := fun _ => 2

/-- The branch-1 quaternion formula exactly as claim C4 words it:
w = sqrt(1+t)/2 and, with s = 0.5/sqrt(1+t), x = (m21 - m12)s,
y = (m02 - m20)s, z = (m10 - m01)s, where mCR is the entry at
column C, row R. Stated for comparison against `Mat3.to_quat`. -/
def toQuatClaimBranch1 (m : Mat3) (sq : ℚ → ℚ) : Quat :=
  let t := m.trace
  let s := half / sq (1 + t)
  ⟨sq (1 + t) / 2,
   (m.cr 2 1 - m.cr 1 2) * s,
   (m.cr 0 2 - m.cr 2 0) * s,
   (m.cr 1 0 - m.cr 0 1) * s⟩

/-- The 3x3 determinant of nine scalars listed in row-major reading
order, used to phrase claim C6's minors. -/
def det3x3 (a b c d e f g h i : ℚ) : ℚ :=
  a * (e * i - f * h) - b * (d * i - f * g) + c * (d * h - e * g)

/-- Claim C6's formula: the cofactor expansion of a `Mat4` along its
first column, with signs +, -, +, -; the minor for row r keeps columns
1..3 and drops row r. Stated for comparison against `Mat4.determinant`. -/
def det4ColExpansion (m : Mat4) : ℚ :=
  m.cr 0 0 * det3x3 (m.cr 1 1) (m.cr 2 1) (m.cr 3 1)
                    (m.cr 1 2) (m.cr 2 2) (m.cr 3 2)
                    (m.cr 1 3) (m.cr 2 3) (m.cr 3 3) -
  m.cr 0 1 * det3x3 (m.cr 1 0) (m.cr 2 0) (m.cr 3 0)
                    (m.cr 1 2) (m.cr 2 2) (m.cr 3 2)
                    (m.cr 1 3) (m.cr 2 3) (m.cr 3 3) +
  m.cr 0 2 * det3x3 (m.cr 1 0) (m.cr 2 0) (m.cr 3 0)
                    (m.cr 1 1) (m.cr 2 1) (m.cr 3 1)
                    (m.cr 1 3) (m.cr 2 3) (m.cr 3 3) -
  m.cr 0 3 * det3x3 (m.cr 1 0) (m.cr 2 0) (m.cr 3 0)
                    (m.cr 1 1) (m.cr 2 1) (m.cr 3 1)
                    (m.cr 1 2) (m.cr 2 2) (m.cr 3 2)

/-- Stand-ins for the external trigonometric capability, recording the
values cos and sin take at the probed angle, a right angle: cos = 0,
sin = 1. -/
def cosStub : ℚ → ℚ := fun _ => 0

/-- See `cosStub`. -/
def sinStub : ℚ → ℚ := fun _ => 1

theorem vec2_i_zero (v : Vec2) : v.i 0 = v.x := rfl

theorem vec2_i_one (v : Vec2) : v.i 1 = v.y := rfl

theorem vec3_i_zero (v : Vec3) : v.i 0 = v.x := rfl

theorem vec3_i_one (v : Vec3) : v.i 1 = v.y := rfl

theorem vec3_i_two (v : Vec3) : v.i 2 = v.z := rfl

theorem vec4_i_zero (v : Vec4) : v.i 0 = v.x := rfl

theorem vec4_i_one (v : Vec4) : v.i 1 = v.y := rfl

theorem vec4_i_two (v : Vec4) : v.i 2 = v.z := rfl

theorem vec4_i_three (v : Vec4) : v.i 3 = v.w := rfl

theorem mat2_c_zero (m : Mat2) : m.c 0 = m.x := rfl

theorem mat2_c_one (m : Mat2) : m.c 1 = m.y := rfl

theorem mat3_c_zero (m : Mat3) : m.c 0 = m.x := rfl

theorem mat3_c_one (m : Mat3) : m.c 1 = m.y := rfl

theorem mat3_c_two (m : Mat3) : m.c 2 = m.z := rfl

theorem mat4_c_zero (m : Mat4) : m.c 0 = m.x := rfl

theorem mat4_c_one (m : Mat4) : m.c 1 = m.y := rfl

theorem mat4_c_two (m : Mat4) : m.c 2 = m.z := rfl

theorem mat4_c_three (m : Mat4) : m.c 3 = m.w := rfl

/-- Approximate equality of scalars is reflexive: the tolerance is positive. -/
theorem approx_eq_refl (a : ℚ) : approx_eq a a = true := by
  simp only [approx_eq, decide_eq_true_eq, sub_self, abs_zero, approx_epsilon]
  norm_num

theorem vec2_approx_refl (v : Vec2) : Vec2.approx v v = true := by
  simp [Vec2.approx, approx_eq_refl]

theorem vec3_approx_refl (v : Vec3) : Vec3.approx v v = true := by
  simp [Vec3.approx, approx_eq_refl]

theorem vec4_approx_refl (v : Vec4) : Vec4.approx v v = true := by
  simp [Vec4.approx, approx_eq_refl]

theorem mat2_approx_refl (m : Mat2) : Mat2.approx m m = true := by
  simp [Mat2.approx, vec2_approx_refl]

theorem mat3_approx_refl (m : Mat3) : Mat3.approx m m = true := by
  simp [Mat3.approx, vec3_approx_refl]

theorem mat4_approx_refl (m : Mat4) : Mat4.approx m m = true := by
  simp [Mat4.approx, vec4_approx_refl]

/-- `Mat2::invert` signals absence exactly on an approximately-zero
determinant: the branch structure of the source. -/
theorem mat2_invert_eq_none_iff (m : Mat2) :
    m.invert = none ↔ approx_eq m.determinant 0 = true := by
  by_cases h : approx_eq m.determinant 0 = true <;> simp [Mat2.invert, h]

/-- `Mat3::invert` signals absence exactly on an approximately-zero
determinant. -/
theorem mat3_invert_eq_none_iff (m : Mat3) :
    m.invert = none ↔ approx_eq m.determinant 0 = true := by
  by_cases h : approx_eq m.determinant 0 = true <;> simp [Mat3.invert, h]

/-- `Mat4::invert` signals absence exactly on an approximately-zero
determinant (its guard is `is_invertible`, the negation of that test). -/
theorem mat4_invert_eq_none_iff (m : Mat4) :
    m.invert = none ↔ approx_eq m.determinant 0 = true := by
  by_cases h : approx_eq m.determinant 0 = true <;>
    simp [Mat4.invert, Mat4.is_invertible, h]

theorem mat2_invert_self_of_some (m p : Mat2) (h : m.invert = some p) :
    m.invert_self = Except.ok p := by
  show (match m.invert with
        | some q => Except.ok q
        | none => Except.error "Attempted to invert a matrix with zero determinant.") =
      Except.ok p
  rw [h]

theorem mat2_invert_self_of_none (m : Mat2) (h : m.invert = none) :
    m.invert_self = Except.error "Attempted to invert a matrix with zero determinant." := by
  show (match m.invert with
        | some q => Except.ok q
        | none => Except.error "Attempted to invert a matrix with zero determinant.") =
      Except.error "Attempted to invert a matrix with zero determinant."
  rw [h]

theorem mat3_invert_self_of_some (m p : Mat3) (h : m.invert = some p) :
    m.invert_self = Except.ok p := by
  show (match m.invert with
        | some q => Except.ok q
        | none => Except.error "Attempted to invert a matrix with zero determinant.") =
      Except.ok p
  rw [h]

theorem mat3_invert_self_of_none (m : Mat3) (h : m.invert = none) :
    m.invert_self = Except.error "Attempted to invert a matrix with zero determinant." := by
  show (match m.invert with
        | some q => Except.ok q
        | none => Except.error "Attempted to invert a matrix with zero determinant.") =
      Except.error "Attempted to invert a matrix with zero determinant."
  rw [h]

theorem mat4_invert_self_of_some (m p : Mat4) (h : m.invert = some p) :
    m.invert_self = Except.ok p := by
  show (match m.invert with
        | some q => Except.ok q
        | none => Except.error "Attempted to invert a matrix with zero determinant.") =
      Except.ok p
  rw [h]

theorem mat4_invert_self_of_none (m : Mat4) (h : m.invert = none) :
    m.invert_self = Except.error "Attempted to invert a matrix with zero determinant." := by
  show (match m.invert with
        | some q => Except.ok q
        | none => Except.error "Attempted to invert a matrix with zero determinant.") =
      Except.error "Attempted to invert a matrix with zero determinant."
  rw [h]

/-- The determinant of `Mat4::ident` evaluates to 1. -/
theorem mat4_determinant_ident : Mat4.ident.determinant = 1 := by
  norm_num [Mat4.determinant, Mat4.ident, Mat4.from_value, Mat4.new, Mat4.from_cols,
    Mat4.cr, mat4_c_zero, mat4_c_one, mat4_c_two, mat4_c_three, Vec4.new,
    vec4_i_zero, vec4_i_one, vec4_i_two, vec4_i_three,
    Mat3.determinant, Mat3.new, Mat3.from_cols, Mat3.cr, mat3_c_zero, mat3_c_one,
    mat3_c_two, Vec3.new, vec3_i_zero, vec3_i_one, vec3_i_two]

/-- `Mat4::ident` passes the invertibility test. -/
theorem mat4_is_invertible_ident : Mat4.ident.is_invertible = true := by
  simp only [Mat4.is_invertible, mat4_determinant_ident, approx_eq, approx_epsilon,
    Bool.not_eq_eq_eq_not, Bool.not_true, decide_eq_false_iff_not]
  norm_num

/-- C1: the claim states that `Mat4::r(r)` returns
(col0[r], col1[r], col2[r], col3[r]). On the concrete matrix `m4ex`
the source's row accessor instead returns (1, 5, 9, 9) for row 0 -
its fourth component repeats column 2 (entry 9) where the claim
requires column 3 (entry 13). -/
theorem mat4_row_gather_reads_column_two_twice :
    m4ex.r 0 = Vec4.new 1 5 9 9 ∧
    m4ex.r 0 ≠ Vec4.new (m4ex.cr 0 0) (m4ex.cr 1 0) (m4ex.cr 2 0) (m4ex.cr 3 0) := by
  decide

/-- C2: the claim states that for every invertible M, `invert` returns
Some(P) with M.mul_m(P) approximately the identity. The identity matrix
is itself a counterexample at dimension 4: it passes `is_invertible` and
`invert` returns a matrix, yet `ident.mul_m(P)` fails the approximate
identity test for EVERY P, because the defective row gather `r` makes
the whole bottom row of any product with `ident` on the left zero. -/
theorem mat4_invert_product_not_identity :
    Mat4.ident.is_invertible = true ∧
    (∃ P, Mat4.ident.invert = some P) ∧
    ∀ P : Mat4, Mat4.approx (Mat4.ident.mul_m P) Mat4.ident = false := by
  refine ⟨mat4_is_invertible_ident, ?_, ?_⟩
  · simp [Mat4.invert, mat4_is_invertible_ident]
  · intro P
    simp [Mat4.approx, Vec4.approx, Mat4.mul_m, Mat4.r, Mat4.ident, Mat4.from_value,
      Mat4.new, Mat4.from_cols, Vec4.new, Vec4.dot,
      mat4_c_zero, mat4_c_one, mat4_c_two, mat4_c_three,
      vec4_i_zero, vec4_i_one, vec4_i_two, vec4_i_three,
      approx_eq, approx_epsilon]
    norm_num

/-- C3: for each dimension, `invert` returns an absent result exactly
when the determinant is approximately zero, and a present matrix in
every other case; being a total function into an Option, it fails in no
other way. -/
theorem invert_none_iff_det_approx_zero (m2 : Mat2) (m3 : Mat3) (m4 : Mat4) :
    (m2.invert = none ↔ approx_eq m2.determinant 0 = true) ∧
    (m3.invert = none ↔ approx_eq m3.determinant 0 = true) ∧
    (m4.invert = none ↔ approx_eq m4.determinant 0 = true) :=
  ⟨mat2_invert_eq_none_iff m2, mat3_invert_eq_none_iff m3, mat4_invert_eq_none_iff m4⟩

/-- C4 counterexample: on the matrix `mex3` (trace 3, so the first
branch of `to_quat` fires) the claim's formulas - subscripts read as
(column, row) - predict z = (m10 - m01)s = -3/4, while the source
computes z = (m01 - m10)s = 3/4. The claim as stated is false. -/
theorem to_quat_claim_formula_false :
    0 ≤ mex3.trace ∧ mex3.to_quat sqrtStub ≠ toQuatClaimBranch1 mex3 sqrtStub := by
  constructor
  · norm_num [Mat3.trace, mex3, Mat3.new, Mat3.from_cols, Mat3.cr,
      mat3_c_zero, mat3_c_one, mat3_c_two, Vec3.new, vec3_i_zero, vec3_i_one, vec3_i_two]
  · simp only [Mat3.to_quat, toQuatClaimBranch1, sqrtStub, mex3, Mat3.trace, Mat3.new,
      Mat3.from_cols, Mat3.cr, mat3_c_zero, mat3_c_one, mat3_c_two,
      Vec3.new, vec3_i_zero, vec3_i_one, vec3_i_two, half]
    norm_num [Quat.mk.injEq]

/-- C4 amended: in the branch taken when the trace t is nonnegative,
`to_quat` returns w = sqrt(1+t)/2 and, with s = 0.5/sqrt(1+t),
x = (m12 - m21)s, y = (m20 - m02)s, z = (m01 - m10)s, where mCR is the
entry at column C, row R - the claim's formulas with each subscript
pair transposed. -/
theorem to_quat_nonneg_trace_formula (m : Mat3) (sq : ℚ → ℚ) (h : 0 ≤ m.trace) :
    m.to_quat sq = ⟨sq (1 + m.trace) / 2,
                    (m.cr 1 2 - m.cr 2 1) * (half / sq (1 + m.trace)),
                    (m.cr 2 0 - m.cr 0 2) * (half / sq (1 + m.trace)),
                    (m.cr 0 1 - m.cr 1 0) * (half / sq (1 + m.trace))⟩ := by
  simp only [Mat3.to_quat]
  rw [if_pos h]
  simp only [Quat.mk.injEq, half, and_true, true_and]
  ring

/-- Witness for C4's amended theorem at the concrete matrix `mex3`. -/
theorem to_quat_nonneg_trace_formula_witness :
    0 ≤ mex3.trace ∧
    mex3.to_quat sqrtStub = ⟨sqrtStub (1 + mex3.trace) / 2,
      (mex3.cr 1 2 - mex3.cr 2 1) * (half / sqrtStub (1 + mex3.trace)),
      (mex3.cr 2 0 - mex3.cr 0 2) * (half / sqrtStub (1 + mex3.trace)),
      (mex3.cr 0 1 - mex3.cr 1 0) * (half / sqrtStub (1 + mex3.trace))⟩ :=
  have h : 0 ≤ mex3.trace := by
    norm_num [Mat3.trace, mex3, Mat3.new, Mat3.from_cols, Mat3.cr,
      mat3_c_zero, mat3_c_one, mat3_c_two, Vec3.new, vec3_i_zero, vec3_i_one, vec3_i_two]
  ⟨h, to_quat_nonneg_trace_formula mex3 sqrtStub h⟩

/-- C5: the claim states that `Mat2::from_angle` puts (cos, sin) in
column 0 and (-sin, cos) in column 1. At a right angle (cos = 0,
sin = 1, supplied through the external-capability stand-ins) the source
instead produces column 0 = (cos, -sin) = (0, -1) and column 1 =
(sin, cos) = (1, 0): the textbook matrix laid out row-major but fed to
the column-major constructor, i.e. the transpose of the claimed matrix. -/
theorem from_angle_columns_transposed :
    Mat2.from_angle cosStub sinStub (157/100) = Mat2.new 0 (-1) 1 0 ∧
    (Mat2.from_angle cosStub sinStub (157/100)).c 0 ≠
      Vec2.new (cosStub (157/100)) (sinStub (157/100)) := by
  constructor
  · rfl
  · show Vec2.new 0 (-1) ≠ Vec2.new 0 1
    simp only [Vec2.new, ne_eq, Vec2.mk.injEq, not_and]
    intro _
    norm_num

/-- C6: `Mat4::determinant` computes the standard 4x4 determinant: it
equals the cofactor expansion along the first column with alternating
signs +, -, +, -, exactly as the claim words it. (Internally the source
expands along the first row with transposed minors, which yields the
same value.) -/
theorem mat4_determinant_eq_col0_cofactor_expansion (m : Mat4) :
    m.determinant = det4ColExpansion m := by
  simp only [Mat4.determinant, det4ColExpansion, det3x3,
    Mat3.determinant, Mat3.new, Mat3.from_cols, Mat3.cr,
    mat3_c_zero, mat3_c_one, mat3_c_two, Vec3.new, vec3_i_zero, vec3_i_one, vec3_i_two]
  ring

/-- C7: the claim states (M.mul_m N).transpose approximately equals
N.transpose.mul_m M.transpose at every dimension. At dimension 4 it
fails already for M = N = ident: the defective row gather makes
ident.mul_m(ident) asymmetric (entry (3,2) is 1, entry (2,3) is 0), so
its transpose differs from the product of the transposes by 1, far
beyond the tolerance. -/
theorem mat4_mul_transpose_not_antihomomorphic :
    Mat4.approx ((Mat4.ident.mul_m Mat4.ident).transpose)
      ((Mat4.ident.transpose).mul_m (Mat4.ident.transpose)) = false := by
  simp [Mat4.approx, Vec4.approx, Mat4.mul_m, Mat4.transpose, Mat4.r, Mat4.ident,
    Mat4.from_value, Mat4.new, Mat4.from_cols, Vec4.new, Vec4.dot, Mat4.cr,
    mat4_c_zero, mat4_c_one, mat4_c_two, mat4_c_three,
    vec4_i_zero, vec4_i_one, vec4_i_two, vec4_i_three,
    approx_eq, approx_epsilon]
  norm_num

/-- The determinant of `Mat2::ident` evaluates to 1. -/
theorem mat2_determinant_ident : Mat2.ident.determinant = 1 := by
  norm_num [Mat2.determinant, Mat2.ident, Mat2.from_value, Mat2.new, Mat2.from_cols,
    Mat2.cr, mat2_c_zero, mat2_c_one, Vec2.new, vec2_i_zero, vec2_i_one]

/-- `Mat2::ident` passes the invertibility test. -/
theorem mat2_is_invertible_ident : Mat2.ident.is_invertible = true := by
  simp only [Mat2.is_invertible, mat2_determinant_ident, approx_eq, approx_epsilon,
    Bool.not_eq_eq_eq_not, Bool.not_true, decide_eq_false_iff_not]
  norm_num

/-- The determinant of `Mat3::ident` evaluates to 1. -/
theorem mat3_determinant_ident : Mat3.ident.determinant = 1 := by
  norm_num [Mat3.determinant, Mat3.ident, Mat3.from_value, Mat3.new, Mat3.from_cols,
    Mat3.cr, mat3_c_zero, mat3_c_one, mat3_c_two, Vec3.new,
    vec3_i_zero, vec3_i_one, vec3_i_two]

/-- `Mat3::ident` passes the invertibility test. -/
theorem mat3_is_invertible_ident : Mat3.ident.is_invertible = true := by
  simp only [Mat3.is_invertible, mat3_determinant_ident, approx_eq, approx_epsilon,
    Bool.not_eq_eq_eq_not, Bool.not_true, decide_eq_false_iff_not]
  norm_num

/-- C8: at every dimension the non-mutating `invert` is a total function
into an Option (absence is its only failure signal, captured by the
iff), while `invert_self` reaches its fatal branch exactly when the
determinant is approximately zero; under `is_invertible` the fatal
branch is unreachable and `invert_self` yields exactly the matrix
`invert` returns. -/
theorem invert_absent_invert_self_fatal (m2 : Mat2) (m3 : Mat3) (m4 : Mat4) :
    ((∃ e, m2.invert_self = Except.error e) ↔ approx_eq m2.determinant 0 = true) ∧
    (m2.is_invertible = true → ∃ P, m2.invert = some P ∧ m2.invert_self = Except.ok P) ∧
    ((∃ e, m3.invert_self = Except.error e) ↔ approx_eq m3.determinant 0 = true) ∧
    (m3.is_invertible = true → ∃ P, m3.invert = some P ∧ m3.invert_self = Except.ok P) ∧
    ((∃ e, m4.invert_self = Except.error e) ↔ approx_eq m4.determinant 0 = true) ∧
    (m4.is_invertible = true → ∃ P, m4.invert = some P ∧ m4.invert_self = Except.ok P) := by
  refine ⟨?_, ?_, ?_, ?_, ?_, ?_⟩
  · by_cases h : approx_eq m2.determinant 0 = true
    · rw [mat2_invert_self_of_none m2 ((mat2_invert_eq_none_iff m2).mpr h)]
      simp [h]
    · have h2 : m2.invert ≠ none := fun hn => h ((mat2_invert_eq_none_iff m2).mp hn)
      obtain ⟨p, hp⟩ := Option.ne_none_iff_exists'.mp h2
      rw [mat2_invert_self_of_some m2 p hp]
      simp [h]
  · intro h
    have h1 : approx_eq m2.determinant 0 ≠ true := by
      simp only [Mat2.is_invertible, Bool.not_eq_true'] at h
      simp [h]
    have h2 : m2.invert ≠ none := fun hn => h1 ((mat2_invert_eq_none_iff m2).mp hn)
    obtain ⟨p, hp⟩ := Option.ne_none_iff_exists'.mp h2
    exact ⟨p, hp, mat2_invert_self_of_some m2 p hp⟩
  · by_cases h : approx_eq m3.determinant 0 = true
    · rw [mat3_invert_self_of_none m3 ((mat3_invert_eq_none_iff m3).mpr h)]
      simp [h]
    · have h2 : m3.invert ≠ none := fun hn => h ((mat3_invert_eq_none_iff m3).mp hn)
      obtain ⟨p, hp⟩ := Option.ne_none_iff_exists'.mp h2
      rw [mat3_invert_self_of_some m3 p hp]
      simp [h]
  · intro h
    have h1 : approx_eq m3.determinant 0 ≠ true := by
      simp only [Mat3.is_invertible, Bool.not_eq_true'] at h
      simp [h]
    have h2 : m3.invert ≠ none := fun hn => h1 ((mat3_invert_eq_none_iff m3).mp hn)
    obtain ⟨p, hp⟩ := Option.ne_none_iff_exists'.mp h2
    exact ⟨p, hp, mat3_invert_self_of_some m3 p hp⟩
  · by_cases h : approx_eq m4.determinant 0 = true
    · rw [mat4_invert_self_of_none m4 ((mat4_invert_eq_none_iff m4).mpr h)]
      simp [h]
    · have h2 : m4.invert ≠ none := fun hn => h ((mat4_invert_eq_none_iff m4).mp hn)
      obtain ⟨p, hp⟩ := Option.ne_none_iff_exists'.mp h2
      rw [mat4_invert_self_of_some m4 p hp]
      simp [h]
  · intro h
    have h1 : approx_eq m4.determinant 0 ≠ true := by
      simp only [Mat4.is_invertible, Bool.not_eq_true'] at h
      simp [h]
    have h2 : m4.invert ≠ none := fun hn => h1 ((mat4_invert_eq_none_iff m4).mp hn)
    obtain ⟨p, hp⟩ := Option.ne_none_iff_exists'.mp h2
    exact ⟨p, hp, mat4_invert_self_of_some m4 p hp⟩

/-- Witness for C8 at the identity matrices of every dimension, which
pass `is_invertible`. -/
theorem invert_absent_invert_self_fatal_witness :
    (Mat2.ident.is_invertible = true ∧
      ∃ P, Mat2.ident.invert = some P ∧ Mat2.ident.invert_self = Except.ok P) ∧
    (Mat3.ident.is_invertible = true ∧
      ∃ P, Mat3.ident.invert = some P ∧ Mat3.ident.invert_self = Except.ok P) ∧
    (Mat4.ident.is_invertible = true ∧
      ∃ P, Mat4.ident.invert = some P ∧ Mat4.ident.invert_self = Except.ok P) :=
  ⟨⟨mat2_is_invertible_ident,
    (invert_absent_invert_self_fatal Mat2.ident Mat3.ident Mat4.ident).2.1
      mat2_is_invertible_ident⟩,
   ⟨mat3_is_invertible_ident,
    (invert_absent_invert_self_fatal Mat2.ident Mat3.ident Mat4.ident).2.2.2.1
      mat3_is_invertible_ident⟩,
   ⟨mat4_is_invertible_ident,
    (invert_absent_invert_self_fatal Mat2.ident Mat3.ident Mat4.ident).2.2.2.2.2
      mat4_is_invertible_ident⟩⟩

/-- C9: at every dimension, transposing twice returns a matrix
approximately equal (in fact exactly equal) to the original. -/
theorem transpose_transpose_approx_self (m2 : Mat2) (m3 : Mat3) (m4 : Mat4) :
    Mat2.approx (m2.transpose.transpose) m2 = true ∧
    Mat3.approx (m3.transpose.transpose) m3 = true ∧
    Mat4.approx (m4.transpose.transpose) m4 = true := by
  refine ⟨?_, ?_, ?_⟩
  · have h : m2.transpose.transpose = m2 := rfl
    rw [h]; exact mat2_approx_refl m2
  · have h : m3.transpose.transpose = m3 := rfl
    rw [h]; exact mat3_approx_refl m3
  · have h : m4.transpose.transpose = m4 := rfl
    rw [h]; exact mat4_approx_refl m4

/-- C10: at every dimension the in-place transpose - the sequence of
pairwise entry swaps of the source - leaves the matrix exactly,
entry for entry, equal to what `transpose` returns. -/
theorem transpose_self_eq_transpose (m2 : Mat2) (m3 : Mat3) (m4 : Mat4) :
    m2.transpose_self = m2.transpose ∧
    m3.transpose_self = m3.transpose ∧
    m4.transpose_self = m4.transpose :=
  ⟨rfl, rfl, rfl⟩

/-- At dimension 2 the transpose anti-homomorphism law holds exactly
(the row gather is correct there), marking the C7 failure as specific
to `Mat4`. -/
theorem mat2_mul_m_transpose (m n : Mat2) :
    (m.mul_m n).transpose = (n.transpose).mul_m (m.transpose) := by
  simp only [Mat2.mul_m, Mat2.transpose, Mat2.r, Mat2.cr, Mat2.new, Mat2.from_cols,
    mat2_c_zero, mat2_c_one, Vec2.new, Vec2.dot, vec2_i_zero, vec2_i_one,
    Mat2.mk.injEq, Vec2.mk.injEq]
  refine ⟨⟨?_, ?_⟩, ⟨?_, ?_⟩⟩ <;> ring

/-- At dimension 3 the transpose anti-homomorphism law holds exactly. -/
theorem mat3_mul_m_transpose (m n : Mat3) :
    (m.mul_m n).transpose = (n.transpose).mul_m (m.transpose) := by
  simp only [Mat3.mul_m, Mat3.transpose, Mat3.r, Mat3.cr, Mat3.new, Mat3.from_cols,
    mat3_c_zero, mat3_c_one, mat3_c_two, Vec3.new, Vec3.dot,
    vec3_i_zero, vec3_i_one, vec3_i_two, Mat3.mk.injEq, Vec3.mk.injEq]
  refine ⟨⟨?_, ?_, ?_⟩, ⟨?_, ?_, ?_⟩, ⟨?_, ?_, ?_⟩⟩ <;> ring

/-- At dimension 2 the adjugate-over-determinant inverse is exact: on a
matrix whose determinant is not approximately zero, `invert` returns a
matrix whose product with the original, in both orders, is exactly the
identity. This marks the C2 failure as specific to `Mat4`. -/
theorem mat2_invert_correct (m : Mat2) (h : approx_eq m.determinant 0 = false) :
    ∃ p, m.invert = some p ∧ m.mul_m p = Mat2.ident ∧ p.mul_m m = Mat2.ident := by
  have hd : m.determinant ≠ 0 := by
    intro h0
    rw [h0] at h
    simp [approx_eq_refl] at h
  refine ⟨Mat2.new (m.cr 1 1 / m.determinant) (-(m.cr 0 1) / m.determinant)
      (-(m.cr 1 0) / m.determinant) (m.cr 0 0 / m.determinant), ?_, ?_, ?_⟩
  · simp [Mat2.invert, h]
  all_goals
    simp only [Mat2.mul_m, Mat2.ident, Mat2.from_value, Mat2.new,
      Mat2.from_cols, Mat2.r, Mat2.cr, mat2_c_zero, mat2_c_one,
      Vec2.new, Vec2.dot, vec2_i_zero, vec2_i_one, Mat2.mk.injEq, Vec2.mk.injEq,
      Mat2.determinant] at hd ⊢
    refine ⟨⟨?_, ?_⟩, ⟨?_, ?_⟩⟩ <;> field_simp <;> ring

/-- At dimension 3 the cross-product adjugate inverse is exact, in both
multiplication orders. -/
theorem mat3_invert_correct (m : Mat3) (h : approx_eq m.determinant 0 = false) :
    ∃ p, m.invert = some p ∧ m.mul_m p = Mat3.ident ∧ p.mul_m m = Mat3.ident := by
  have hd : m.determinant ≠ 0 := by
    intro h0
    rw [h0] at h
    simp [approx_eq_refl] at h
  refine ⟨(Mat3.from_cols (((m.c 1).cross (m.c 2)).div_s m.determinant)
      (((m.c 2).cross (m.c 0)).div_s m.determinant)
      (((m.c 0).cross (m.c 1)).div_s m.determinant)).transpose, ?_, ?_, ?_⟩
  · simp [Mat3.invert, h]
  all_goals
    simp only [Mat3.mul_m, Mat3.ident, Mat3.from_value, Mat3.new,
      Mat3.from_cols, Mat3.transpose, Mat3.r, Mat3.cr, mat3_c_zero, mat3_c_one, mat3_c_two,
      Vec3.new, Vec3.dot, Vec3.cross, Vec3.div_s, vec3_i_zero, vec3_i_one, vec3_i_two,
      Mat3.mk.injEq, Vec3.mk.injEq, Mat3.determinant] at hd ⊢
    refine ⟨⟨?_, ?_, ?_⟩, ⟨?_, ?_, ?_⟩, ⟨?_, ?_, ?_⟩⟩ <;> field_simp <;> ring
